import Mathlib

/-!
# Verification of the agentic-workflows core against its specification

Shallow embedding of the three core subsystems of the repository:

* `src/agent/mcp_client.py` — the MCP client manager (connection registry,
  tool discovery, call routing, teardown);
* `src/agent/tool_caller.py` and `src/agent/pipeline.py` — the deterministic
  six-step pipeline;
* `src/agent/main.py` (`test` command, `_run_pipeline`) — the inline copy of
  the deterministic pipeline;
* `src/agent/agent.py` — the ReAct reasoning loop.

External effects (subprocess I/O, the Claude API, wall-clock time) are
modelled by oracles: pure functions supplying the outcome of each external
call.  Python exceptions are modelled with `Except`; Python dicts built from
parsed JSON are modelled as ordered association lists.
-/

set_option linter.unusedVariables false

/-- A parsed JSON value, as produced by Python's `json.loads`.  Python dicts
are modelled as ordered association lists (JSON objects parsed by Python have
unique keys, later duplicates overwriting earlier ones at parse time, so the
first-match lookup below agrees with dict lookup on parser output).  JSON
numbers are modelled as integers; the program only manipulates integral
load-cap values. -/
inductive JVal where
  | null : JVal
  | bool : Bool → JVal
  | num : Int → JVal
  | str : String → JVal
  | arr : List JVal → JVal
  | obj : List (String × JVal) → JVal

mutual
/-- Structural (Python `==`) equality test on parsed-JSON values. -/
def JVal.beq : JVal → JVal → Bool
  | .null, .null => true
  | .bool a, .bool b => a == b
  | .num a, .num b => a == b
  | .str a, .str b => a == b
  | .arr a, .arr b => JVal.beqL a b
  | .obj a, .obj b => JVal.beqKV a b
  | _, _ => false

def JVal.beqL : List JVal → List JVal → Bool
  | [], [] => true
  | x :: xs, y :: ys => JVal.beq x y && JVal.beqL xs ys
  | _, _ => false

def JVal.beqKV : List (String × JVal) → List (String × JVal) → Bool
  | [], [] => true
  | (k, v) :: kvs, (k', v') :: kvs' => k == k' && JVal.beq v v' && JVal.beqKV kvs kvs'
  | _, _ => false
end

example : JVal.beq (.num 10) (.num 0) = false := by decide
example : JVal.beq (.arr [.str "a"]) (.arr [.str "a"]) = true := by decide


theorem JVal.beqAux : ∀ n : Nat,
    (∀ a b : JVal, sizeOf a ≤ n → ((JVal.beq a b = true) ↔ a = b)) ∧
    (∀ xs ys : List JVal, sizeOf xs ≤ n → ((JVal.beqL xs ys = true) ↔ xs = ys)) ∧
    (∀ kv kv' : List (String × JVal), sizeOf kv ≤ n →
      ((JVal.beqKV kv kv' = true) ↔ kv = kv')) := by
  intro n
  induction n with
  | zero =>
      refine ⟨fun a b h => ?_, fun xs ys h => ?_, fun kv kv' h => ?_⟩
      · cases a <;> simp at h
      · cases xs <;> simp at h
      · cases kv <;> simp at h
  | succ n ih =>
      obtain ⟨ihJ, ihL, ihKV⟩ := ih
      refine ⟨fun a b h => ?_, fun xs ys h => ?_, fun kv kv' h => ?_⟩
      · cases a <;> cases b <;> simp [JVal.beq]
        case arr.arr xs ys =>
            have hs : sizeOf xs ≤ n := by simp at h; omega
            exact ihL xs ys hs
        case obj.obj kv kv' =>
            have hs : sizeOf kv ≤ n := by simp at h; omega
            exact ihKV kv kv' hs
      · cases xs with
        | nil => cases ys <;> simp [JVal.beqL]
        | cons x xs =>
            cases ys with
            | nil => simp [JVal.beqL]
            | cons y ys =>
                have hx : sizeOf x ≤ n := by simp at h; omega
                have hxs : sizeOf xs ≤ n := by simp at h; omega
                simp [JVal.beqL, ihJ x y hx, ihL xs ys hxs]
      · cases kv with
        | nil => cases kv' <;> simp [JVal.beqKV]
        | cons p kv =>
            cases p with
            | mk k v =>
                cases kv' with
                | nil => simp [JVal.beqKV]
                | cons q kv' =>
                    cases q with
                    | mk k' v' =>
                        have hv : sizeOf v ≤ n := by simp at h; omega
                        have hkv : sizeOf kv ≤ n := by simp at h; omega
                        simp [JVal.beqKV, ihJ v v' hv, ihKV kv kv' hkv,
                          and_assoc]
  
theorem JVal.beq_iff_eq (a b : JVal) : (JVal.beq a b = true) ↔ a = b :=
  (JVal.beqAux (sizeOf a)).1 a b le_rfl

instance : DecidableEq JVal := fun a b =>
  decidable_of_iff (JVal.beq a b = true) (JVal.beq_iff_eq a b)

instance : BEq JVal := ⟨JVal.beq⟩

/-- First-match association-list lookup, the model of Python dict lookup. -/
def jlookup (k : String) : List (String × JVal) → Option JVal
  | [] => none
  | (k', v) :: rest => if k = k' then some v else jlookup k rest

/-- Python truthiness of a parsed-JSON value (`if x:`). -/
def JVal.truthy : JVal → Bool
  | .null => false
  | .bool b => b
  | .num n => n != 0
  | .str s => s != ""
  | .arr xs => !xs.isEmpty
  | .obj kvs => !kvs.isEmpty

/-- Whether `needle` is an initial segment of `hay` (character lists). -/
def listPre : List Char → List Char → Bool
  | [], _ => true
  | _ :: _, [] => false
  | a :: as, b :: bs => a == b && listPre as bs

/-- Whether `needle` occurs as a contiguous segment of the list. -/
def listSub (needle : List Char) : List Char → Bool
  | [] => needle.isEmpty
  | a :: rest => listPre needle (a :: rest) || listSub needle rest

/-- Python's `needle in hay` on strings: substring containment. -/
def strContains (hay needle : String) : Bool :=
  listSub needle.data hay.data

/-- Python's `str.upper()` (the program only compares the ASCII marker
`FAIL`, for which per-character upcasing coincides). -/
def pyUpper (s : String) : String :=
  String.mk (s.data.map Char.toUpper)

/-- Exceptions that the pipeline code can raise. -/
inductive PErr where
  /-- `ToolCallError(tool_name, message)` from `tool_caller.py`; the raw
  `result["error"]` value is carried (the Python code stores `str()` of it,
  a presentation detail). -/
  | toolCallError (tool : String) (errVal : JVal)
  /-- `json.JSONDecodeError` from `json.loads` on a non-JSON payload. -/
  | jsonDecodeError
  /-- Python `TypeError` (e.g. `"error" in 5`, `len(5)`, subscripting). -/
  | typeError
  /-- Python `AttributeError` (e.g. `.get` on a non-dict). -/
  | attributeError
  /-- Python `KeyError` from `d[k]` on a missing key. -/
  | keyError (k : String)
  /-- `ValueError` raised by `_discover` when no endpoints survive. -/
  | valueError (msg : String)
  deriving DecidableEq

/-- `"error" in v` for a parsed-JSON value `v`: key membership on dicts,
element membership on lists, substring test on strings, `TypeError`
otherwise. -/
def pyHasError : JVal → Except PErr Bool
  | .obj kvs => .ok (jlookup "error" kvs).isSome
  | .arr xs => .ok (xs.contains (.str "error"))
  | .str s => .ok (strContains s "error")
  | _ => .error .typeError

/-- `v["error"]`: dict subscription; non-dicts subscripted with a string
raise `TypeError`. -/
def pySubscriptError : JVal → Except PErr JVal
  | .obj kvs =>
      match jlookup "error" kvs with
      | some x => .ok x
      | none => .error (.keyError "error")
  | _ => .error .typeError

/-- `v[k]` on a parsed-JSON value. -/
def pySubscript (v : JVal) (k : String) : Except PErr JVal :=
  match v with
  | .obj kvs =>
      match jlookup k kvs with
      | some x => .ok x
      | none => .error (.keyError k)
  | _ => .error .typeError

/-- `v.get(k, d)`: only dicts have `.get`; anything else raises
`AttributeError`. -/
def pyGet (v : JVal) (k : String) (d : JVal) : Except PErr JVal :=
  match v with
  | .obj kvs => .ok ((jlookup k kvs).getD d)
  | _ => .error .attributeError

/-- `len(v)`: length of lists, strings and dicts; `TypeError` otherwise. -/
def pyLen : JVal → Except PErr Nat
  | .arr xs => .ok xs.length
  | .str s => .ok s.length
  | .obj kvs => .ok kvs.length
  | _ => .error .typeError

/-- `min(a, b)` as applied to the discovered load caps.  Numbers and strings
compare as in Python; two equal lists compare equal element-by-element in
Python, so `min` returns the first.  Remaining combinations (mixed types,
`None`, dicts, unequal lists) are modelled as `TypeError`; Python's
bool-as-int coercion is not modelled, none of the verified claims exercise
it. -/
def pyMin (a b : JVal) : Except PErr JVal :=
  match a, b with
  | .num x, .num y => .ok (.num (min x y))
  | .str x, .str y => .ok (.str (if y < x then y else x))
  | .bool x, .bool y => .ok (.bool (x && y))
  | .arr x, .arr y => if x = y then .ok (.arr x) else .error .typeError
  | _, _ => .error .typeError

/-- `requested or maxv` for an optional integer CLI parameter: Python `or`
yields the right operand when the left is `None` or `0` (both falsy). -/
def pyOrReq (requested : Option Int) (maxv : JVal) : JVal :=
  match requested with
  | none => maxv
  | some n => if n = 0 then maxv else .num n

/-- `min(requested or maxv, maxv)` — the effective-load-parameter expression
that appears verbatim in `DeterministicPipeline._discover` and in the `test`
command of `main.py`. -/
def effParam (requested : Option Int) (maxv : JVal) : Except PErr JVal :=
  pyMin (pyOrReq requested maxv) maxv

/-- Python truthiness of an optional string (`if cfg.baseline:`). -/
def strOptTruthy : Option String → Bool
  | none => false
  | some s => s != ""

/-- `', '.join(regressions)` is evaluated on the regression list: it succeeds
on any iterable of strings (list of strings, a string, dict keys) and raises
`TypeError` otherwise.  The joined text is only printed, so just the
possible exception is modelled. -/
def pyJoinOk : JVal → Except PErr Unit
  | .arr xs => if xs.all (fun x => match x with | .str _ => true | _ => false)
      then .ok () else .error .typeError
  | .str _ => .ok ()
  | .obj _ => .ok ()
  | _ => .error .typeError

-- ── JSON serialization (`json.dumps`, default options) ──────────────────────

/-- Lower-case hexadecimal digit. -/
def hexDigit (n : Nat) : Char :=
  if n < 10 then Char.ofNat (48 + n) else Char.ofNat (87 + n)

/-- `\uXXXX` escape for a code unit below `0x10000`. -/
def uEsc (n : Nat) : String :=
  "\\u" ++ String.mk [hexDigit (n / 4096 % 16), hexDigit (n / 256 % 16),
                      hexDigit (n / 16 % 16), hexDigit (n % 16)]

/-- Escape of one character inside a JSON string, following `json.dumps`
with its default `ensure_ascii=True`. -/
def jsonEscChar (c : Char) : String :=
  if c = '"' then "\\\""
  else if c = '\\' then "\\\\"
  else if c = '\n' then "\\n"
  else if c = '\r' then "\\r"
  else if c = '\t' then "\\t"
  else if c = Char.ofNat 8 then "\\b"
  else if c = Char.ofNat 12 then "\\f"
  else if c.toNat < 32 then uEsc c.toNat
  else if c.toNat < 127 then String.singleton c
  else if c.toNat < 65536 then uEsc c.toNat
  else
    uEsc (55296 + (c.toNat - 65536) / 1024) ++ uEsc (56320 + (c.toNat - 65536) % 1024)

/-- `json.dumps` of a Python string. -/
def dumpsStr (s : String) : String :=
  "\"" ++ String.join (s.data.map jsonEscChar) ++ "\""

/-- `json.dumps({"error": msg})` for a string message — the structured error
payload produced by `MCPClientManager.call_tool`. -/
def dumpsErrorObj (msg : String) : String :=
  "\x7b\"error\": " ++ dumpsStr msg ++ "\x7d"

-- ── MCP client manager (`src/agent/mcp_client.py`) ──────────────────────────

/-- `MCPServerConfig` from `mcp_client.py`. -/
structure MCPServerConfig where
  name : String
  command : String
  args : List String
  env : List (String × String)
  deriving DecidableEq

/-- One tool as returned by `session.list_tools()`: `tool.name`,
`tool.description` (possibly `None`) and `tool.inputSchema`. -/
structure MCPToolDecl where
  name : String
  description : Option String
  inputSchema : JVal
  deriving DecidableEq

/-- One tool in Claude API format, as built by `_connect_server`. -/
structure ClaudeTool where
  name : String
  description : String
  input_schema : JVal
  deriving DecidableEq

/-- `ConnectedServer`: config plus discovered tools (the live session handle
is implicit; session-call outcomes are supplied by an oracle at each call). -/
structure ConnectedServer where
  config : MCPServerConfig
  tools : List ClaudeTool
  deriving DecidableEq

/-- The mutable state of an `MCPClientManager`: `connected_servers`,
`_tool_to_server`, `_claude_tools`, and the count of entries of the
`_contexts` stack (their identity does not matter for the verified claims,
only that teardown drains and clears them). -/
structure ManagerState where
  connected_servers : List (String × ConnectedServer)
  tool_to_server : List (String × String)
  claude_tools : List ClaudeTool
  contexts : Nat
  deriving DecidableEq

/-- The freshly constructed manager. -/
def ManagerState.init : ManagerState := ⟨[], [], [], 0⟩

/-- Python dict assignment `d[k] = v`: overwrite in place when the key is
present (its position is preserved), append otherwise. -/
def dictSet (d : List (String × α)) (k : String) (v : α) : List (String × α) :=
  if (d.lookup k).isSome then
    d.map (fun p => if p.1 = k then (k, v) else p)
  else d ++ [(k, v)]

/-- Outcome of one `_connect_server` attempt, supplied by an oracle: the
subprocess launch / handshake may raise at the points marked in the source
(before the stdio context is pushed, after it, or after the session is
pushed), or succeed with the server's declared tool list. -/
inductive ConnectAttempt where
  | failBeforeCtx
  | failAfterCtx
  | failAfterSession
  | success (decls : List MCPToolDecl)
  deriving DecidableEq

/-- Conversion to Claude format performed in `_connect_server`
(`tool.description or ""`). -/
def toClaudeTool (t : MCPToolDecl) : ClaudeTool :=
  ⟨t.name, t.description.getD "", t.inputSchema⟩

/-- `MCPClientManager._connect_server`: on success, registers every declared
tool name to this server (overwriting existing registrations) and records the
connected server; a failure raises after having pushed the already-acquired
contexts. -/
def connectServer (st : ManagerState) (config : MCPServerConfig)
    (att : ConnectAttempt) : Except Unit (List ClaudeTool) × ManagerState :=
  match att with
  | .failBeforeCtx => (.error (), st)
  | .failAfterCtx => (.error (), { st with contexts := st.contexts + 1 })
  | .failAfterSession => (.error (), { st with contexts := st.contexts + 2 })
  | .success decls =>
      let claudeTools := decls.map toClaudeTool
      let reg := decls.foldl (fun r t => dictSet r t.name config.name)
        st.tool_to_server
      (.ok claudeTools,
        { st with
          contexts := st.contexts + 2
          tool_to_server := reg
          connected_servers :=
            dictSet st.connected_servers config.name ⟨config, claudeTools⟩ })

/-- Worker loop of `connect_all`: each configured server is attempted
independently (the `i`-th attempt's outcome comes from the oracle `atts`);
an exception is logged and skipped, never aborting the remaining servers. -/
def connectAllGo (atts : Nat → ConnectAttempt) :
    List MCPServerConfig → Nat → List ClaudeTool → ManagerState →
    List ClaudeTool × ManagerState
  | [], _, acc, st => (acc, { st with claude_tools := acc })
  | c :: cs, i, acc, st =>
      match connectServer st c (atts i) with
      | (.ok ts, st1) => connectAllGo atts cs (i + 1) (acc ++ ts) st1
      | (.error _, st1) => connectAllGo atts cs (i + 1) acc st1

/-- `MCPClientManager.connect_all`: connect to every configured server,
collect all discovered tools, and assign the collected list to
`_claude_tools` wholesale at the end. -/
def connectAll (st : ManagerState) (configs : List MCPServerConfig)
    (atts : Nat → ConnectAttempt) : List ClaudeTool × ManagerState :=
  connectAllGo atts configs 0 [] st

/-- One content fragment of an MCP tool response: either it has a `.text`
attribute, or it is stringified with `str(...)`. -/
inductive ContentPart where
  | textPart (s : String)
  | otherPart (s : String)
  deriving DecidableEq

/-- The text extracted from one content fragment in `call_tool`. -/
def partText : ContentPart → String
  | .textPart s => s
  | .otherPart s => s

/-- Outcome of `session.call_tool`, supplied by an oracle: the content
fragments of the response, or an exception carrying `str(exc)`. -/
abbrev SessionOutcome := Except String (List ContentPart)

/-- `MCPClientManager.call_tool`: route a tool call and return the result
string.  Total — every branch of the source returns a string; exceptions
from the underlying session call are caught and converted into a structured
error payload. -/
def MCPClientManager.callTool (st : ManagerState) (toolName : String)
    (arguments : JVal) (sess : SessionOutcome) : String :=
  match st.tool_to_server.lookup toolName with
  | none => dumpsErrorObj ("Unknown tool: " ++ toolName)
  | some serverName =>
      -- `if not server_name:` — the empty string is falsy in Python.
      if serverName = "" then dumpsErrorObj ("Unknown tool: " ++ toolName)
      else
        match st.connected_servers.lookup serverName with
        | none => dumpsErrorObj ("Server '" ++ serverName ++ "' not connected")
        | some _ =>
            match sess with
            | .error msg => dumpsErrorObj ("Tool call failed: " ++ msg)
            | .ok parts => String.intercalate "\n" (parts.map partText)

/-- `MCPClientManager.disconnect_all`: drain the context stack in reverse
order (suppressing release-time errors), then clear every registry and
cache. -/
def disconnectAll (st : ManagerState) : ManagerState :=
  ⟨[], [], [], 0⟩

-- ── Deterministic pipeline (`tool_caller.py`, `pipeline.py`) ────────────────

/-- `json.loads` outcome of the string returned by one tool call: a parse
failure (`json.JSONDecodeError`) or a parsed value.  The `n`-th tool call of
a pipeline run receives response `oracle n`. -/
abbrev RawResp := Except Unit JVal

/-- The response oracle of one pipeline run: the parse outcome of the `n`-th
tool call's result string (tool calls are strictly sequential). -/
abbrev Oracle := Nat → RawResp

/-- One recorded tool call: the tool's name and the argument payload that
was sent. -/
structure CallRec where
  tool : String
  args : JVal
  deriving DecidableEq

/-- Call-sequencing state of a run: how many tool calls were made (the index
into the oracle) and the chronological record of the calls. -/
structure CallState where
  idx : Nat
  trace : List CallRec
  deriving DecidableEq

/-- `mcp.call_tool(name, args)` as seen by the pipelines: consumes the next
oracle response and records the call. -/
def CallState.call (s : CallState) (o : Oracle) (tool : String) (args : JVal) :
    RawResp × CallState :=
  (o s.idx, ⟨s.idx + 1, s.trace ++ [⟨tool, args⟩]⟩)

/-- The tool names of a call trace. -/
def calledTools (s : CallState) : List String := s.trace.map CallRec.tool

/-- `TestRunConfig` from `config_loader.py` (the pipeline's input
parameters). -/
structure TestRunConfig where
  service : String
  env : String
  users : Option Int
  duration : Option Int
  baseline : Option String
  save_as : Option String
  ci : Bool
  verbose : Bool
  deriving DecidableEq

/-- `call_tool_safe` from `tool_caller.py`: call the tool, parse the JSON
response, raise `ToolCallError` if it contains an `"error"` key, otherwise
return the parsed payload. -/
def callToolSafe (o : Oracle) (s : CallState) (name : String) (args : JVal) :
    Except PErr JVal × CallState :=
  let (raw, s1) := s.call o name args
  match raw with
  | .error _ => (.error .jsonDecodeError, s1)
  | .ok result =>
      match pyHasError result with
      | .error e => (.error e, s1)
      | .ok true =>
          match pySubscriptError result with
          | .error e => (.error e, s1)
          | .ok ev => (.error (.toolCallError name ev), s1)
      | .ok false => (.ok result, s1)

/-- `take_snapshot` from `tool_caller.py`: a degraded-gracefully metrics
snapshot.  `ToolCallError` and `json.JSONDecodeError` are caught and turn
into `None` (modelled as `JVal.null`, which is what the snapshot path
variable holds); any other exception propagates. -/
def takeSnapshot (o : Oracle) (s : CallState) (base_url : JVal)
    (service : String) (label : String) : Except PErr JVal × CallState :=
  match callToolSafe o s "snapshot_metrics"
      (.obj [("base_url", base_url), ("label", .str label),
             ("service_name", .str service)]) with
  | (.ok result, s1) =>
      match pyGet result "saved_to" .null with
      | .ok v => (.ok v, s1)
      | .error e => (.error e, s1)
  | (.error (.toolCallError t ev), s1) => (.ok .null, s1)
  | (.error .jsonDecodeError, s1) => (.ok .null, s1)
  | (.error e, s1) => (.error e, s1)

/-- The dictionary built and returned by `DeterministicPipeline._discover`. -/
structure Discovery where
  endpoints : JVal
  base_url : JVal
  test_data_file : JVal
  token_file : JVal
  max_users : JVal
  max_duration : JVal
  eff_users : JVal
  eff_duration : JVal
  deriving DecidableEq

/-- The pure tail of `_discover` once the discovery response is parsed:
endpoint check, cap defaults, and the clamped effective load parameters. -/
def discoverBody (cfg : TestRunConfig) (discovery : JVal) :
    Except PErr Discovery := do
  let endpoints ← pyGet discovery "endpoints" (.arr [])
  if !endpoints.truthy then
    throw (.valueError "No testable endpoints found after filtering.")
  let max_users ← pyGet discovery "max_concurrent_users" (.num 500)
  let max_duration ← pyGet discovery "max_duration_seconds" (.num 600)
  let base_url ← pySubscript discovery "base_url"
  let test_data_file ← pyGet discovery "test_data_file" .null
  let token_file ← pyGet discovery "token_file" .null
  let eff_users ← effParam cfg.users max_users
  let eff_duration ← effParam cfg.duration max_duration
  pure ⟨endpoints, base_url, test_data_file, token_file, max_users,
        max_duration, eff_users, eff_duration⟩

/-- `DeterministicPipeline._discover`. -/
def DeterministicPipeline.discover (o : Oracle) (cfg : TestRunConfig)
    (s : CallState) : Except PErr Discovery × CallState :=
  match callToolSafe o s "discover_endpoints"
      (.obj [("service_name", .str cfg.service), ("environment", .str cfg.env)]) with
  | (.error e, s1) => (.error e, s1)
  | (.ok discovery, s1) => (discoverBody cfg discovery, s1)

/-- The `script_args` dict built by `DeterministicPipeline._generate_script`:
`test_data_file` is added only when truthy; a truthy `token_file` also adds
`service_name` and `environment`. -/
def scriptArgsObj (cfg : TestRunConfig) (d : Discovery) : JVal :=
  let base := [("test_name", JVal.str (cfg.service ++ "-deterministic")),
               ("base_url", d.base_url), ("endpoints", d.endpoints),
               ("virtual_users", d.eff_users),
               ("duration_seconds", d.eff_duration),
               ("max_concurrent_users", d.max_users),
               ("max_duration_seconds", d.max_duration)]
  let withTD := if d.test_data_file.truthy then
      base ++ [("test_data_file", d.test_data_file)] else base
  let withTok := if d.token_file.truthy then
      withTD ++ [("token_file", d.token_file),
                 ("service_name", JVal.str cfg.service),
                 ("environment", JVal.str cfg.env)]
    else withTD
  .obj withTok

/-- The value returned by `_generate_script`. -/
structure ScriptInfo where
  test_name : String
  script_name : JVal
  deriving DecidableEq

/-- `DeterministicPipeline._generate_script`. -/
def DeterministicPipeline.generateScript (o : Oracle) (cfg : TestRunConfig)
    (d : Discovery) (s : CallState) : Except PErr ScriptInfo × CallState :=
  match callToolSafe o s "generate_k6_script" (scriptArgsObj cfg d) with
  | (.error e, s1) => (.error e, s1)
  | (.ok result, s1) =>
      match pyGet result "script_name" .null with
      | .error e => (.error e, s1)
      | .ok sn => (.ok ⟨cfg.service ++ "-deterministic", sn⟩, s1)

/-- The aggregate produced by `_analyze` and wrapped by `run` into
`PipelineResult`. -/
structure PipelineResult where
  analysis : JVal
  comparison : Option JVal
  report : JVal
  verdict : JVal
  deriving DecidableEq

/-- The optional `compare_baseline` sub-step of `_analyze`: returns the
comparison payload (if any) and the verdict.  The regression list is read
and joined for the log line, which can itself raise. -/
def analyzeCompare (o : Oracle) (cfg : TestRunConfig) (results_file : JVal)
    (s : CallState) : Except PErr (Option JVal × JVal) × CallState :=
  if strOptTruthy cfg.baseline then
    match callToolSafe o s "compare_baseline"
        (.obj [("current_results_file", results_file),
               ("baseline_name", .str (cfg.baseline.getD ""))]) with
    | (.error e, s1) => (.error e, s1)
    | (.ok comparison, s1) =>
        match pyGet comparison "verdict" (.str "PASS") with
        | .error e => (.error e, s1)
        | .ok verdict =>
            match pyGet comparison "regressions" (.arr []) with
            | .error e => (.error e, s1)
            | .ok regressions =>
                if regressions.truthy then
                  match pyJoinOk regressions with
                  | .error e => (.error e, s1)
                  | .ok _ => (.ok (some comparison, verdict), s1)
                else (.ok (some comparison, verdict), s1)
  else (.ok (none, .str "PASS"), s)

/-- The optional `save_baseline` sub-step of `_analyze`.  Note that it goes
through `call_tool_safe`, so an error-marked response raises. -/
def analyzeSave (o : Oracle) (cfg : TestRunConfig) (results_file : JVal)
    (s : CallState) : Except PErr Unit × CallState :=
  if strOptTruthy cfg.save_as then
    match callToolSafe o s "save_baseline"
        (.obj [("results_file", results_file),
               ("baseline_name", .str (cfg.save_as.getD "")),
               ("metadata", .obj [("service", .str cfg.service),
                                  ("environment", .str cfg.env)])]) with
    | (.error e, s1) => (.error e, s1)
    | (.ok _, s1) => (.ok (), s1)
  else (.ok (), s)

/-- The `report_args` dict of `_analyze` (shared verbatim with `main.py`):
`baseline_name` when a baseline was supplied, `metrics_snapshots` when at
least one snapshot path is truthy. -/
def reportArgsObj (cfg : TestRunConfig) (results_file snap_before snap_after : JVal) :
    JVal :=
  let base := [("results_file", results_file),
               ("service_name", JVal.str cfg.service),
               ("environment", JVal.str cfg.env)]
  let withB := if strOptTruthy cfg.baseline then
      base ++ [("baseline_name", JVal.str (cfg.baseline.getD ""))] else base
  let paths := [snap_before, snap_after].filter JVal.truthy
  let withS := if !paths.isEmpty then
      withB ++ [("metrics_snapshots", JVal.arr paths)] else withB
  .obj withS

/-- `DeterministicPipeline._analyze`: analysis (fail-fast), optional
comparison (fail-fast), optional persistence (also through
`call_tool_safe`), report generation. -/
def DeterministicPipeline.analyze (o : Oracle) (cfg : TestRunConfig)
    (results_file : JVal) (snap_before snap_after : JVal) (s : CallState) :
    Except PErr PipelineResult × CallState :=
  match callToolSafe o s "analyze_results" (.obj [("results_file", results_file)]) with
  | (.error e, s1) => (.error e, s1)
  | (.ok analysis, s1) =>
      match pyGet analysis "performance_grade" (.str "?") with
      | .error e => (.error e, s1)
      | .ok _ =>
          match analyzeCompare o cfg results_file s1 with
          | (.error e, s2) => (.error e, s2)
          | (.ok (comparison, verdict), s2) =>
              match analyzeSave o cfg results_file s2 with
              | (.error e, s3) => (.error e, s3)
              | (.ok _, s3) =>
                  match callToolSafe o s3 "generate_report"
                      (reportArgsObj cfg results_file snap_before snap_after) with
                  | (.error e, s4) => (.error e, s4)
                  | (.ok report, s4) =>
                      (.ok ⟨analysis, comparison, report, verdict⟩, s4)

/-- `DeterministicPipeline.run`: the fixed six-step sequence.  The f-string
log arguments (`len(discovery['endpoints'])`, `run_result.get('status')`)
are evaluated unconditionally in the source (the `ci` test happens inside
`_log`), so their possible exceptions are part of the model. -/
def DeterministicPipeline.run (o : Oracle) (cfg : TestRunConfig) :
    Except PErr PipelineResult × CallState :=
  match DeterministicPipeline.discover o cfg ⟨0, []⟩ with
  | (.error e, s) => (.error e, s)
  | (.ok d, s) =>
      match pyLen d.endpoints with
      | .error e => (.error e, s)
      | .ok _ =>
          match DeterministicPipeline.generateScript o cfg d s with
          | (.error e, s) => (.error e, s)
          | (.ok script, s) =>
              match takeSnapshot o s d.base_url cfg.service "before" with
              | (.error e, s) => (.error e, s)
              | (.ok snapB, s) =>
                  match callToolSafe o s "run_k6_test"
                      (.obj [("script_name", .str (script.test_name ++ ".js"))]) with
                  | (.error e, s) => (.error e, s)
                  | (.ok runRes, s) =>
                      match pyGet runRes "status" .null with
                      | .error e => (.error e, s)
                      | .ok _ =>
                          match pyGet runRes "results_file" (.str "") with
                          | .error e => (.error e, s)
                          | .ok results_file =>
                              match takeSnapshot o s d.base_url cfg.service "after" with
                              | (.error e, s) => (.error e, s)
                              | (.ok snapA, s) =>
                                  DeterministicPipeline.analyze o cfg
                                    results_file snapB snapA s

-- ── Inline pipeline of the `test` CLI command (`main.py`, `_run_pipeline`) ──

/-- A bare `mcp.call_tool` + `json.loads` as used throughout `_run_pipeline`
in `main.py` (no error-key inspection — each step does its own, or none). -/
def mainCall (o : Oracle) (s : CallState) (name : String) (args : JVal) :
    Except PErr JVal × CallState :=
  let (raw, s1) := s.call o name args
  match raw with
  | .error _ => (.error .jsonDecodeError, s1)
  | .ok v => (.ok v, s1)

/-- The discovery values bound by step 1 of `_run_pipeline` (no token-file
handling, unlike `DeterministicPipeline`). -/
structure MainDisc where
  base_url : JVal
  endpoints : JVal
  test_data_file : JVal
  max_users : JVal
  max_duration : JVal
  eff_users : JVal
  eff_duration : JVal
  deriving DecidableEq

/-- The `script_args` dict of step 2 of `_run_pipeline`: `test_data_file`
when truthy, and no `token_file` entry at all. -/
def mainScriptArgsObj (cfg : TestRunConfig) (d : MainDisc) : JVal :=
  let base := [("test_name", JVal.str (cfg.service ++ "-deterministic")),
               ("base_url", d.base_url), ("endpoints", d.endpoints),
               ("virtual_users", d.eff_users),
               ("duration_seconds", d.eff_duration),
               ("max_concurrent_users", d.max_users),
               ("max_duration_seconds", d.max_duration)]
  .obj (if d.test_data_file.truthy then
    base ++ [("test_data_file", d.test_data_file)] else base)

/-- Steps 3 and 5 of `_run_pipeline`: inline snapshot.  An error-marked
response is skipped; the saved path is read (unconditionally) when there is
no error marker.  A `json.loads` failure is NOT caught here, unlike
`take_snapshot`. -/
def mainSnapshot (o : Oracle) (cfg : TestRunConfig) (base_url : JVal)
    (label : String) (s : CallState) : Except PErr JVal × CallState :=
  match mainCall o s "snapshot_metrics"
      (.obj [("base_url", base_url), ("label", .str label),
             ("service_name", .str cfg.service)]) with
  | (.error e, s1) => (.error e, s1)
  | (.ok snap, s1) =>
      match pyHasError snap with
      | .error e => (.error e, s1)
      | .ok false =>
          match pyGet snap "saved_to" .null with
          | .error e => (.error e, s1)
          | .ok p => (.ok p, s1)
      | .ok true => (.ok .null, s1)

/-- The optional `compare_baseline` part of step 6 of `_run_pipeline`.  The
regression log line (and its `join`) is guarded by `if not ci:` here, unlike
in `pipeline.py`. -/
def mainCompare (o : Oracle) (cfg : TestRunConfig) (results_file : JVal)
    (s : CallState) : Except PErr (Option JVal × JVal) × CallState :=
  if strOptTruthy cfg.baseline then
    match mainCall o s "compare_baseline"
        (.obj [("current_results_file", results_file),
               ("baseline_name", .str (cfg.baseline.getD ""))]) with
    | (.error e, s1) => (.error e, s1)
    | (.ok comparison, s1) =>
        match pyGet comparison "verdict" (.str "PASS") with
        | .error e => (.error e, s1)
        | .ok verdict =>
            match pyGet comparison "regressions" (.arr []) with
            | .error e => (.error e, s1)
            | .ok regressions =>
                if !cfg.ci && regressions.truthy then
                  match pyJoinOk regressions with
                  | .error e => (.error e, s1)
                  | .ok _ => (.ok (some comparison, verdict), s1)
                else (.ok (some comparison, verdict), s1)
  else (.ok (none, .str "PASS"), s)

/-- The optional `save_baseline` part of step 6 of `_run_pipeline`: a bare
`call_tool` whose result string is ignored entirely — never parsed, never
checked. -/
def mainSave (o : Oracle) (cfg : TestRunConfig) (results_file : JVal)
    (s : CallState) : CallState :=
  if strOptTruthy cfg.save_as then
    (s.call o "save_baseline"
      (.obj [("results_file", results_file),
             ("baseline_name", .str (cfg.save_as.getD "")),
             ("metadata", .obj [("service", .str cfg.service),
                                ("environment", .str cfg.env)])])).2
  else s

/-- Step 6 of `_run_pipeline`: analysis (NO error-marker check), optional
comparison, optional persistence, report (NO error-marker check). -/
def mainAnalyze (o : Oracle) (cfg : TestRunConfig)
    (results_file snapB snapA : JVal) (s : CallState) :
    Except PErr (Option PipelineResult) × CallState :=
  match mainCall o s "analyze_results" (.obj [("results_file", results_file)]) with
  | (.error e, s1) => (.error e, s1)
  | (.ok analysis, s1) =>
      match (if cfg.ci then Except.ok JVal.null
             else pyGet analysis "performance_grade" (.str "?")) with
      | .error e => (.error e, s1)
      | .ok _ =>
          match mainCompare o cfg results_file s1 with
          | (.error e, s2) => (.error e, s2)
          | (.ok (comparison, verdict), s2) =>
              let s3 := mainSave o cfg results_file s2
              match mainCall o s3 "generate_report"
                  (reportArgsObj cfg results_file snapB snapA) with
              | (.error e, s4) => (.error e, s4)
              | (.ok report, s4) =>
                  (.ok (some ⟨analysis, comparison, report, verdict⟩), s4)

/-- Steps 3-5 of `_run_pipeline`: snapshot, k6 run (NO error-marker check on
the run response), snapshot. -/
def mainStep3 (o : Oracle) (cfg : TestRunConfig) (d : MainDisc)
    (s : CallState) : Except PErr (Option PipelineResult) × CallState :=
  match mainSnapshot o cfg d.base_url "before" s with
  | (.error e, s1) => (.error e, s1)
  | (.ok snapB, s1) =>
      match mainCall o s1 "run_k6_test"
          (.obj [("script_name", .str (cfg.service ++ "-deterministic" ++ ".js"))]) with
      | (.error e, s2) => (.error e, s2)
      | (.ok run_result, s2) =>
          match (if cfg.ci then Except.ok JVal.null
                 else pyGet run_result "status" .null) with
          | .error e => (.error e, s2)
          | .ok _ =>
              match pyGet run_result "results_file" (.str "") with
              | .error e => (.error e, s2)
              | .ok results_file =>
                  match mainSnapshot o cfg d.base_url "after" s2 with
                  | (.error e, s3) => (.error e, s3)
                  | (.ok snapA, s3) =>
                      mainAnalyze o cfg results_file snapB snapA s3

/-- Step 2 of `_run_pipeline`: script generation; an error-marked response
prints the error (evaluating `script_result['error']` unconditionally) and
returns `None`. -/
def mainStep2 (o : Oracle) (cfg : TestRunConfig) (d : MainDisc)
    (s : CallState) : Except PErr (Option PipelineResult) × CallState :=
  match mainCall o s "generate_k6_script" (mainScriptArgsObj cfg d) with
  | (.error e, s1) => (.error e, s1)
  | (.ok script_result, s1) =>
      match pyHasError script_result with
      | .error e => (.error e, s1)
      | .ok true =>
          match pySubscriptError script_result with
          | .error e => (.error e, s1)
          | .ok _ => (.ok none, s1)
      | .ok false =>
          match (if cfg.ci then Except.ok JVal.null
                 else pyGet script_result "script_name" .null) with
          | .error e => (.error e, s1)
          | .ok _ => mainStep3 o cfg d s1

/-- `_run_pipeline` from the `test` command of `main.py`.  `.ok none` models
`return None` (an abort later turned into exit code 1); a `.error` models an
exception propagating out of the coroutine (the `finally:` block only
disconnects, it does not swallow). -/
def mainRun (o : Oracle) (cfg : TestRunConfig) :
    Except PErr (Option PipelineResult) × CallState :=
  match mainCall o ⟨0, []⟩ "discover_endpoints"
      (.obj [("service_name", .str cfg.service), ("environment", .str cfg.env)]) with
  | (.error e, s) => (.error e, s)
  | (.ok discovery, s) =>
      match pyHasError discovery with
      | .error e => (.error e, s)
      | .ok true =>
          match pySubscriptError discovery with
          | .error e => (.error e, s)
          | .ok _ => (.ok none, s)
      | .ok false =>
          match pyGet discovery "endpoints" (.arr []) with
          | .error e => (.error e, s)
          | .ok endpoints =>
              if !endpoints.truthy then (.ok none, s)
              else
                match pySubscript discovery "base_url" with
                | .error e => (.error e, s)
                | .ok base_url =>
                    match pyGet discovery "test_data_file" .null with
                    | .error e => (.error e, s)
                    | .ok test_data_file =>
                        match pyGet discovery "max_concurrent_users" (.num 500) with
                        | .error e => (.error e, s)
                        | .ok max_users =>
                            match pyGet discovery "max_duration_seconds" (.num 600) with
                            | .error e => (.error e, s)
                            | .ok max_duration =>
                                match effParam cfg.users max_users with
                                | .error e => (.error e, s)
                                | .ok eff_users =>
                                    match effParam cfg.duration max_duration with
                                    | .error e => (.error e, s)
                                    | .ok eff_duration =>
                                        match (if cfg.ci then Except.ok 0
                                               else pyLen endpoints) with
                                        | .error e => (.error e, s)
                                        | .ok _ =>
                                            mainStep2 o cfg
                                              ⟨base_url, endpoints, test_data_file,
                                               max_users, max_duration,
                                               eff_users, eff_duration⟩ s

-- ── ReAct reasoning loop (`agent.py`) ───────────────────────────────────────

/-- One content block of a Claude response, discriminated by `block.type`. -/
inductive Block where
  | text (s : String)
  | toolUse (id : String) (name : String) (input : JVal)
  | other (ty : String)
  deriving DecidableEq

/-- `block.type == "tool_use"`. -/
def Block.isToolUse : Block → Bool
  | .toolUse _ _ _ => true
  | _ => false

/-- `block.text` for `block.type == "text"`. -/
def Block.textOf : Block → Option String
  | .text s => some s
  | _ => none

/-- `"\n".join(block.text for block in content if block.type == "text")`. -/
def joinTextBlocks (content : List Block) : String :=
  String.intercalate "\n" (content.filterMap Block.textOf)

/-- Outcome of one `client.messages.create` call: a response (content blocks
plus stop reason), an `anthropic.APIError` (caught by the loop), or any
other exception (uncaught, propagates out of `run`). -/
inductive ClaudeOutcome where
  | ok (content : List Block) (stop_reason : String)
  | apiError (msg : String)
  | raised (msg : String)
  deriving DecidableEq

/-- Reasoning-service oracle: outcome of the `n`-th API call of the run. -/
abbrev ClaudeOracle := Nat → ClaudeOutcome

/-- Tool-result oracle: the string returned by the `n`-th
`mcp.call_tool` of the run (`call_tool` is total, see
`MCPClientManager.callTool`). -/
abbrev ToolResultOracle := Nat → String

/-- A conversation message (`self.conversation` entries). -/
inductive Msg where
  | userText (s : String)
  | assistant (content : List Block)
  | toolResults (rs : List (String × String))
  deriving DecidableEq

/-- Loop variables of `PerformanceAgent.run`: the conversation, the
`iterations` counter, `self.total_tool_calls`, the number of reasoning-API
calls issued (ghost counter; one per pass), and the `final_response`
accumulator. -/
structure LoopState where
  conversation : List Msg
  iterations : Nat
  totalToolCalls : Nat
  apiCalls : Nat
  finalResponse : String
  deriving DecidableEq

/-- How one run of the while-loop ended: by `break`, by exhaustion of the
`iterations < max_iterations` condition, or by an uncaught exception. -/
inductive RunEnd where
  | broke
  | cutoff
  | raised (msg : String)
  deriving DecidableEq

/-- The tool-execution `for` loop of one turn: each requested invocation is
executed strictly sequentially via `call_tool`, accumulating
`(tool_use_id, result)` pairs; `k` is the global tool-call counter. -/
def runToolCalls (tr : ToolResultOracle) : List Block → Nat →
    List (String × String) × Nat
  | [], k => ([], k)
  | .toolUse id name input :: rest, k =>
      let r := tr k
      let (rs, k') := runToolCalls tr rest (k + 1)
      ((id, r) :: rs, k')
  | _ :: rest, k => runToolCalls tr rest k

/-- The `while iterations < max_iterations` loop of `PerformanceAgent.run`.
`fuel` is `max_iterations - iterations`, which decreases by exactly one per
pass (the counter is incremented once per pass and never decremented), so
fuel exhaustion is exactly the failure of the loop condition. -/
def reactLoop (co : ClaudeOracle) (tr : ToolResultOracle) :
    Nat → LoopState → RunEnd × LoopState
  | 0, st => (.cutoff, st)
  | fuel + 1, st =>
      -- `iterations += 1`, then the API call (its index is the number of
      -- previous calls), then the ghost counter.
      match co st.apiCalls with
      | .raised m =>
          (.raised m,
           { st with iterations := st.iterations + 1, apiCalls := st.apiCalls + 1 })
      | .apiError m =>
          (.broke,
           { st with iterations := st.iterations + 1, apiCalls := st.apiCalls + 1,
                     finalResponse := "Claude API error: " ++ m })
      | .ok content stop =>
          let stA := { st with
            iterations := st.iterations + 1
            apiCalls := st.apiCalls + 1
            conversation := st.conversation ++ [Msg.assistant content] }
          if (content.filter Block.isToolUse).isEmpty then
            (.broke, { stA with finalResponse := joinTextBlocks content })
          else
            let res := runToolCalls tr (content.filter Block.isToolUse) stA.totalToolCalls
            let stB := { stA with
              totalToolCalls := res.2
              conversation := stA.conversation ++ [Msg.toolResults res.1] }
            if stop = "end_turn" then
              (.broke, { stB with finalResponse := joinTextBlocks content })
            else
              reactLoop co tr fuel stB

/-- The result dataclass of a run (`AgentResult`); `duration_seconds` is
wall-clock time and is not modelled. -/
structure AgentResult where
  response : String
  tool_calls_made : Nat
  iterations : Nat
  has_regression : Bool
  deriving DecidableEq

/-- `"FAIL" in final_response.upper()`. -/
def hasFailMarker (s : String) : Bool :=
  strContains (pyUpper s) "FAIL"

/-- The fixed diagnostic returned when no MCP tools were discovered. -/
def noToolsMsg : String :=
  "No MCP tools available. Make sure MCP servers are built (npm run build)."

instance {e a : Type} [DecidableEq e] [DecidableEq a] : DecidableEq (Except e a) :=
  fun x y =>
    match x, y with
    | .ok u, .ok v => if h : u = v then isTrue (by rw [h]) else isFalse (by simp [h])
    | .error u, .error v => if h : u = v then isTrue (by rw [h]) else isFalse (by simp [h])
    | .ok _, .error _ => isFalse (by simp)
    | .error _, .ok _ => isFalse (by simp)

/-- Observable outcome of `PerformanceAgent.run`: the returned
`AgentResult`, or the message of an exception that propagated; plus whether
`mcp.disconnect_all()` was invoked before the run ended. -/
structure AgentRunOut where
  outcome : Except String AgentResult
  disconnected : Bool
  deriving DecidableEq

/-- `PerformanceAgent.run`: connect (the discovered tool list is the `tools`
argument), seed the conversation, return the fixed diagnostic if no tools
were discovered (without disconnecting — there is no `try/finally` in the
source), otherwise run the ReAct loop; `disconnect_all` is reached only on
the straight-line path after the loop. -/
def PerformanceAgent.run (tools : List ClaudeTool) (co : ClaudeOracle)
    (tr : ToolResultOracle) (maxIterations : Nat) (ciMode : Bool)
    (userMessage : String) : AgentRunOut :=
  if tools.isEmpty then
    { outcome := .ok ⟨noToolsMsg, 0, 0, false⟩, disconnected := false }
  else
    match reactLoop co tr maxIterations ⟨[.userText userMessage], 0, 0, 0, ""⟩ with
    | (.raised m, _) => { outcome := .error m, disconnected := false }
    | (.broke, st) =>
        { outcome := .ok ⟨st.finalResponse, st.totalToolCalls, st.iterations,
            ciMode && hasFailMarker st.finalResponse⟩
          disconnected := true }
    | (.cutoff, st) =>
        { outcome := .ok ⟨st.finalResponse, st.totalToolCalls, st.iterations,
            ciMode && hasFailMarker st.finalResponse⟩
          disconnected := true }

-- ── Characterization helpers and concrete verification inputs ───────────────

/-- The Claude-format tools contributed by one connect attempt: the converted
declarations on success, nothing on failure. -/
def attemptTools : ConnectAttempt → List ClaudeTool
  | .success ds => ds.map toClaudeTool
  | _ => []

/-- The union of the tools of the successful attempts, in configuration
order, starting at attempt index `i`. -/
def toolsUnion (atts : Nat → ConnectAttempt) : Nat → List MCPServerConfig → List ClaudeTool
  | _, [] => []
  | i, _ :: cs => attemptTools (atts i) ++ toolsUnion atts (i + 1) cs

/-- The `(tool name, server name)` registrations performed by one connect-all
cycle, in chronological order. -/
def cycleAssignments (atts : Nat → ConnectAttempt) :
    Nat → List MCPServerConfig → List (String × String)
  | _, [] => []
  | i, c :: cs =>
      (match atts i with
       | .success ds => ds.map (fun t => (t.name, c.name))
       | _ => []) ++ cycleAssignments atts (i + 1) cs

/-- Inject a forced failure: the `k`-th tool call responds with the
error-marked payload `{"error": e}`; every other call answers as in `o`. -/
def injectErr (k : Nat) (e : JVal) (o : Oracle) : Oracle :=
  fun n => if n = k then .ok (.obj [("error", e)]) else o n

/-- A benign response scaffold for a full pipeline run: every step answers
with a well-formed, error-free object. -/
def oGood : Oracle := fun n =>
  if n = 0 then .ok (.obj [("endpoints", .arr [.obj []]), ("base_url", .str "http://x")])
  else if n = 1 then .ok (.obj [("script_name", .str "s.js")])
  else if n = 2 then .ok (.obj [("saved_to", .str "b.json")])
  else if n = 3 then .ok (.obj [("status", .str "completed"), ("results_file", .str "r.json")])
  else if n = 4 then .ok (.obj [("saved_to", .str "a.json")])
  else if n = 5 then .ok (.obj [("performance_grade", .str "A")])
  else .ok (.obj [("saved_to", .str "report.md")])

/-- `oGood` with discovery also advertising per-target maxima 10 users /
60 seconds. -/
def oGoodCaps : Oracle := fun n =>
  if n = 0 then .ok (.obj [("endpoints", .arr [.obj []]), ("base_url", .str "http://x"),
    ("max_concurrent_users", .num 10), ("max_duration_seconds", .num 60)])
  else oGood n

/-- A constant discovery response advertising maxima `m` users / `dm`
seconds. -/
def oDiscCaps (m dm : Int) : Oracle := fun _ =>
  .ok (.obj [("endpoints", .arr [.obj []]), ("base_url", .str "http://x"),
    ("max_concurrent_users", .num m), ("max_duration_seconds", .num dm)])

/-- A plain test-run configuration: no explicit load parameters, no
baseline, no save-as. -/
def cfgPlain : TestRunConfig := ⟨"svc", "local", none, none, none, none, false, false⟩

/-- A configuration explicitly requesting `--users 0` and `--duration 30`. -/
def cfgZero : TestRunConfig := ⟨"svc", "local", some 0, some 30, none, none, true, false⟩

/-- A configuration supplying a save-as baseline name. -/
def cfgSave : TestRunConfig := ⟨"svc", "local", none, none, none, some "nightly", true, false⟩

/-- A reasoning service that immediately answers with final text. -/
def coNone : ClaudeOracle := fun _ => .ok [.text "done"] "end_turn"

/-- A reasoning service that always requests one more tool invocation and
never signals end of turn. -/
def coLoop : ClaudeOracle := fun _ => .ok [.toolUse "i" "t" .null] "tool_use"

/-- A reasoning service whose call raises a non-`APIError` exception. -/
def coRaise : ClaudeOracle := fun _ => .raised "boom"

/-- A constant tool-result oracle. -/
def trNone : ToolResultOracle := fun _ => "r"

/-- Two server configurations for two successive connect-all cycles. -/
def cfgSrvA : MCPServerConfig := ⟨"A", "node", [], []⟩

def cfgSrvB : MCPServerConfig := ⟨"B", "node", [], []⟩

/-- Attempts for the cycles: cycle one discovers tool `t` on `A`, cycle two
discovers tool `u` on `B`. -/
def attsT : Nat → ConnectAttempt := fun _ => .success [⟨"t", some "d", .null⟩]

def attsU : Nat → ConnectAttempt := fun _ => .success [⟨"u", some "d", .null⟩]

-- ═════════════════════════ Claim theorems ═════════════════════════

-- Helper lemmas about the ReAct loop (shared by loop claims).

/-- Each pass of the loop makes exactly one reasoning-API call, so at most
`fuel` calls are added. -/
theorem reactLoop_api_le (co : ClaudeOracle) (tr : ToolResultOracle) :
    ∀ (fuel : Nat) (st : LoopState),
    (reactLoop co tr fuel st).2.apiCalls ≤ st.apiCalls + fuel := by
  intro fuel
  induction fuel with
  | zero => intro st; simp [reactLoop]
  | succ n ih =>
      intro st
      simp only [reactLoop]
      split
      · dsimp only; omega
      · dsimp only; omega
      · split
        · dsimp only; omega
        · split
          · dsimp only; omega
          · exact (ih _).trans (by dsimp only; omega)

/-- `final_response` is only ever assigned on a `break`; a loop that ends by
exhausting its condition leaves it untouched. -/
theorem reactLoop_cutoff_final (co : ClaudeOracle) (tr : ToolResultOracle) :
    ∀ (fuel : Nat) (st : LoopState),
    (reactLoop co tr fuel st).1 = .cutoff →
    (reactLoop co tr fuel st).2.finalResponse = st.finalResponse := by
  intro fuel
  induction fuel with
  | zero => intro st _; simp [reactLoop]
  | succ n ih =>
      intro st
      simp only [reactLoop]
      split
      · intro hc; exact RunEnd.noConfusion hc
      · intro hc; exact RunEnd.noConfusion hc
      · split
        · intro hc; exact RunEnd.noConfusion hc
        · split
          · intro hc; exact RunEnd.noConfusion hc
          · intro hc; exact ih _ hc

/-- The iteration counter and the number of reasoning-API calls advance in
lock step. -/
theorem reactLoop_iter_api (co : ClaudeOracle) (tr : ToolResultOracle) :
    ∀ (fuel : Nat) (st : LoopState), st.iterations = st.apiCalls →
    (reactLoop co tr fuel st).2.iterations = (reactLoop co tr fuel st).2.apiCalls := by
  intro fuel
  induction fuel with
  | zero => intro st hh; simpa [reactLoop] using hh
  | succ n ih =>
      intro st hh
      simp only [reactLoop]
      split
      · dsimp only; omega
      · dsimp only; omega
      · split
        · dsimp only; omega
        · split
          · dsimp only; omega
          · exact ih _ (by dsimp only; omega)

/-- C4: for every configured bound `N`, the loop issues at most `N`
reasoning-service calls (the call count equals the iteration count),
regardless of how many tool invocations each turn requests; and when the
bound is exhausted without a terminal state, `run` returns normally with the
accumulated partial text — the empty string, since text is only accumulated
at a break — rather than raising. -/
theorem C4_iteration_bound (co : ClaudeOracle) (tr : ToolResultOracle)
    (N : Nat) (tools : List ClaudeTool) (ci : Bool) (um : String)
    (hne : tools ≠ []) :
    (reactLoop co tr N ⟨[.userText um], 0, 0, 0, ""⟩).2.apiCalls ≤ N ∧
    (reactLoop co tr N ⟨[.userText um], 0, 0, 0, ""⟩).2.iterations =
      (reactLoop co tr N ⟨[.userText um], 0, 0, 0, ""⟩).2.apiCalls ∧
    ((reactLoop co tr N ⟨[.userText um], 0, 0, 0, ""⟩).1 = .cutoff →
      (PerformanceAgent.run tools co tr N ci um).outcome =
        .ok ⟨"", (reactLoop co tr N ⟨[.userText um], 0, 0, 0, ""⟩).2.totalToolCalls,
             (reactLoop co tr N ⟨[.userText um], 0, 0, 0, ""⟩).2.iterations, false⟩) := by
  refine ⟨by simpa using reactLoop_api_le co tr N ⟨[.userText um], 0, 0, 0, ""⟩,
    reactLoop_iter_api co tr N _ rfl, ?_⟩
  intro hc
  have hf := reactLoop_cutoff_final co tr N ⟨[.userText um], 0, 0, 0, ""⟩ hc
  have hte : tools.isEmpty = false := by
    cases tools with
    | nil => exact absurd rfl hne
    | cons t ts => rfl
  simp only [PerformanceAgent.run, hte, Bool.false_eq_true, if_false]
  cases hr : reactLoop co tr N ⟨[.userText um], 0, 0, 0, ""⟩ with
  | mk e st2 =>
      rw [hr] at hc hf
      cases e with
      | raised m => exact absurd hc (by simp)
      | broke => exact absurd hc (by simp)
      | cutoff =>
          have hf2 : st2.finalResponse = "" := by simpa using hf
          have hfm : hasFailMarker "" = false := rfl
          simp [hf2, hfm]

/-- C4 witness: a model that requests a tool invocation on every turn and
never ends its turn, with bound `N = 2`: the loop makes exactly two API
calls and the run is cut off with the empty response. -/
theorem C4_witness :
    (reactLoop coLoop trNone 2 ⟨[.userText "go"], 0, 0, 0, ""⟩).2.apiCalls ≤ 2 ∧
    (PerformanceAgent.run [⟨"t", "", .null⟩] coLoop trNone 2 false "go").outcome =
      .ok ⟨"", 2, 2, false⟩ := by
  have h := C4_iteration_bound coLoop trNone 2 [⟨"t", "", .null⟩] false "go"
    (by simp)
  exact ⟨h.1, h.2.2 rfl⟩

/-- C9: if tool discovery yields an empty tool set, `PerformanceAgent.run`
never starts the reasoning loop: it returns immediately with the fixed
diagnostic message, zero iterations and zero tool calls. -/
theorem C9_no_tools_early_return (co : ClaudeOracle) (tr : ToolResultOracle)
    (N : Nat) (ci : Bool) (um : String) :
    PerformanceAgent.run [] co tr N ci um =
      ⟨.ok ⟨noToolsMsg, 0, 0, false⟩, false⟩ := rfl

/-- C5 (code bug): `PerformanceAgent.run` does not release the Connection
Manager on every exit path: the no-tools early return leaves it connected,
and a non-`APIError` exception from the reasoning-service call propagates
without disconnecting; the normal completion path does disconnect. -/
theorem C5_missing_disconnect :
    (PerformanceAgent.run [] coNone trNone 30 false "go").disconnected = false ∧
    (PerformanceAgent.run [⟨"t", "", .null⟩] coRaise trNone 30 false "go").outcome
      = .error "boom" ∧
    (PerformanceAgent.run [⟨"t", "", .null⟩] coRaise trNone 30 false "go").disconnected
      = false ∧
    (PerformanceAgent.run [⟨"t", "", .null⟩] coNone trNone 30 false "go").disconnected
      = true :=
  ⟨rfl, rfl, rfl, rfl⟩

/-- C6 (code bug): in step 6 of `DeterministicPipeline`, baseline
persistence is not best-effort: an error-marked `save_baseline` response
raises `ToolCallError` through `call_tool_safe`, aborting the run, so no
verdict is returned and `generate_report` is never invoked. -/
theorem C6_save_failure_skips_report :
    (DeterministicPipeline.run (injectErr 6 (.str "disk full") oGood) cfgSave).1 =
      .error (.toolCallError "save_baseline" (.str "disk full")) ∧
    "save_baseline" ∈ calledTools
      (DeterministicPipeline.run (injectErr 6 (.str "disk full") oGood) cfgSave).2 ∧
    "generate_report" ∉ calledTools
      (DeterministicPipeline.run (injectErr 6 (.str "disk full") oGood) cfgSave).2 :=
  ⟨rfl, by decide, by decide⟩

/-- C10 counterexample: under the identical response sequence in which the
run-execution step answers with an error-marked payload,
`DeterministicPipeline.run` aborts before step 6, while `_run_pipeline` of
`main.py` proceeds to step 6 and returns a PASS verdict — the two
implementations are not behaviorally equivalent. -/
theorem C10_counterexample :
    (DeterministicPipeline.run (injectErr 3 (.str "k6 crashed") oGood) cfgPlain).1 =
      .error (.toolCallError "run_k6_test" (.str "k6 crashed")) ∧
    "analyze_results" ∉ calledTools
      (DeterministicPipeline.run (injectErr 3 (.str "k6 crashed") oGood) cfgPlain).2 ∧
    (mainRun (injectErr 3 (.str "k6 crashed") oGood) cfgPlain).1 =
      .ok (some ⟨.obj [("performance_grade", .str "A")], none,
                 .obj [("saved_to", .str "report.md")], .str "PASS"⟩) ∧
    "analyze_results" ∈ calledTools
      (mainRun (injectErr 3 (.str "k6 crashed") oGood) cfgPlain).2 :=
  ⟨rfl, by decide, rfl, by decide⟩

/-- C1 counterexample: a requested load volume of `0` is a non-negative
integer not exceeding the discovered maximum `10`, so
`effective = min(requested, maximum)` predicts `0`; the code treats `0` as
falsy (`cfg.users or max_users`) and passes the maximum `10` to the
generation step instead. -/
theorem C1_counterexample :
    effParam (some 0) (.num 10) = .ok (.num 10) ∧
    ((DeterministicPipeline.run oGoodCaps cfgZero).2.trace.map CallRec.args).get? 1 =
      some (.obj [("test_name", .str "svc-deterministic"), ("base_url", .str "http://x"),
        ("endpoints", .arr [.obj []]),
        ("virtual_users", .num 10), ("duration_seconds", .num 30),
        ("max_concurrent_users", .num 10), ("max_duration_seconds", .num 60)]) ∧
    ¬ ((0 : Int) > 10) ∧ JVal.num 10 ≠ JVal.num 0 :=
  ⟨rfl, rfl, by decide, by decide⟩

/-- C7 counterexample: the name→provider registry is not rebuilt wholesale
on each connect-all cycle — after a second cycle that discovers only tool
`u` on server `B`, the first cycle's registration of tool `t` to server `A`
and the stale `A` provider-map entry survive; only the cached tool list is
rebuilt wholesale. -/
theorem C7_counterexample :
    (connectAll ManagerState.init [cfgSrvA] attsT).2.tool_to_server = [("t", "A")] ∧
    (connectAll (connectAll ManagerState.init [cfgSrvA] attsT).2 [cfgSrvB] attsU).2.tool_to_server
      = [("t", "A"), ("u", "B")] ∧
    (connectAll (connectAll ManagerState.init [cfgSrvA] attsT).2 [cfgSrvB] attsU).2.claude_tools
      = [⟨"u", "d", .null⟩] ∧
    (connectAll (connectAll ManagerState.init [cfgSrvA] attsT).2 [cfgSrvB] attsU).2.connected_servers.lookup "A"
      = some ⟨cfgSrvA, [⟨"t", "d", .null⟩]⟩ :=
  ⟨rfl, rfl, rfl, rfl⟩

/-- C2 counterexample: with tool `t` registered to a provider whose name is
the empty string and that provider not connected, the claim requires a
structured error naming the provider; `call_tool` instead takes the
`if not server_name:` branch and reports `Unknown tool: t`. -/
theorem C2_counterexample :
    ([("t", "")] : List (String × String)).lookup "t" = some "" ∧
    (([] : List (String × ConnectedServer)).lookup "" = none) ∧
    MCPClientManager.callTool ⟨[], [("t", "")], [], 0⟩ "t" (.obj []) (.ok []) =
      dumpsErrorObj "Unknown tool: t" ∧
    MCPClientManager.callTool ⟨[], [("t", "")], [], 0⟩ "t" (.obj []) (.ok []) ≠
      dumpsErrorObj "Server '' not connected" :=
  ⟨rfl, rfl, rfl, by decide⟩

/-- C2 (amended): `call_tool` is total and returns, for every state, tool
name, argument payload and session outcome: the `Unknown tool` payload when
the name is unregistered OR registered to an empty-named provider; the
`not connected` payload naming the provider when its (nonempty) name has no
connected entry; the `Tool call failed` payload carrying the exception
message when the underlying session call raises; and the newline-joined
fragment texts on success. -/
theorem C2_amended_call_tool (st : ManagerState) (name : String) (args : JVal)
    (sess : SessionOutcome) :
    (st.tool_to_server.lookup name = none ∨ st.tool_to_server.lookup name = some "" →
      MCPClientManager.callTool st name args sess =
        dumpsErrorObj ("Unknown tool: " ++ name)) ∧
    (∀ sn, st.tool_to_server.lookup name = some sn → sn ≠ "" →
      st.connected_servers.lookup sn = none →
      MCPClientManager.callTool st name args sess =
        dumpsErrorObj ("Server '" ++ sn ++ "' not connected")) ∧
    (∀ sn srv msg, st.tool_to_server.lookup name = some sn → sn ≠ "" →
      st.connected_servers.lookup sn = some srv → sess = .error msg →
      MCPClientManager.callTool st name args sess =
        dumpsErrorObj ("Tool call failed: " ++ msg)) ∧
    (∀ sn srv parts, st.tool_to_server.lookup name = some sn → sn ≠ "" →
      st.connected_servers.lookup sn = some srv → sess = .ok parts →
      MCPClientManager.callTool st name args sess =
        String.intercalate "\n" (parts.map partText)) := by
  refine ⟨?_, ?_, ?_, ?_⟩
  · rintro (h | h) <;> simp [MCPClientManager.callTool, h]
  · intro sn h hne hs
    simp [MCPClientManager.callTool, h, hne, hs]
  · intro sn srv msg h hne hs hsess
    simp [MCPClientManager.callTool, h, hne, hs, hsess]
  · intro sn srv parts h hne hs hsess
    simp [MCPClientManager.callTool, h, hne, hs, hsess]

/-- C2 witness: a registered tool on a connected provider whose session call
raises produces the structured `Tool call failed` payload. -/
theorem C2_amended_witness :
    MCPClientManager.callTool
      ⟨[("s1", ⟨⟨"s1", "node", [], []⟩, []⟩)], [("a", "s1")], [], 0⟩
      "a" (.obj []) (.error "boom") =
      dumpsErrorObj ("Tool call failed: " ++ "boom") :=
  (C2_amended_call_tool ⟨[("s1", ⟨⟨"s1", "node", [], []⟩, []⟩)], [("a", "s1")], [], 0⟩
      "a" (.obj []) (.error "boom")).2.2.1 "s1" ⟨⟨"s1", "node", [], []⟩, []⟩ "boom"
    rfl (by decide) rfl rfl

-- Helper lemmas characterizing `connect_all` (shared by the registry claims).

/-- The tools collected by the connect-all worker are the accumulator plus
the union over the remaining attempts — failures contribute nothing and do
not stop the fold. -/
theorem connectAllGo_tools (atts : Nat → ConnectAttempt) :
    ∀ (cs : List MCPServerConfig) (i : Nat) (acc : List ClaudeTool) (st : ManagerState),
    (connectAllGo atts cs i acc st).1 = acc ++ toolsUnion atts i cs := by
  intro cs
  induction cs with
  | nil => intro i acc st; simp [connectAllGo, toolsUnion]
  | cons c cs ih =>
      intro i acc st
      simp only [connectAllGo, toolsUnion]
      cases hatt : atts i with
      | success ds =>
          simp [connectServer, hatt, ih, attemptTools, List.append_assoc]
      | failBeforeCtx => simp [connectServer, hatt, ih, attemptTools]
      | failAfterCtx => simp [connectServer, hatt, ih, attemptTools]
      | failAfterSession => simp [connectServer, hatt, ih, attemptTools]

/-- After the worker finishes, `_claude_tools` holds exactly the returned
union (assigned wholesale at the end of `connect_all`). -/
theorem connectAllGo_cache (atts : Nat → ConnectAttempt) :
    ∀ (cs : List MCPServerConfig) (i : Nat) (acc : List ClaudeTool) (st : ManagerState),
    (connectAllGo atts cs i acc st).2.claude_tools = (connectAllGo atts cs i acc st).1 := by
  intro cs
  induction cs with
  | nil => intro i acc st; simp [connectAllGo]
  | cons c cs ih =>
      intro i acc st
      simp only [connectAllGo]
      cases hatt : atts i with
      | success ds => simp [connectServer, hatt, ih]
      | failBeforeCtx => simp [connectServer, hatt, ih]
      | failAfterCtx => simp [connectServer, hatt, ih]
      | failAfterSession => simp [connectServer, hatt, ih]

/-- The registry after the worker is the original registry updated, in
chronological order, with every registration of the cycle (overwriting on
collision — last registration wins). -/
theorem connectAllGo_registry (atts : Nat → ConnectAttempt) :
    ∀ (cs : List MCPServerConfig) (i : Nat) (acc : List ClaudeTool) (st : ManagerState),
    (connectAllGo atts cs i acc st).2.tool_to_server =
      (cycleAssignments atts i cs).foldl (fun r p => dictSet r p.1 p.2)
        st.tool_to_server := by
  intro cs
  induction cs with
  | nil => intro i acc st; simp [connectAllGo, cycleAssignments]
  | cons c cs ih =>
      intro i acc st
      simp only [connectAllGo, cycleAssignments]
      cases hatt : atts i with
      | success ds =>
          simp [connectServer, hatt, ih, List.foldl_append, List.foldl_map]
      | failBeforeCtx => simp [connectServer, hatt, ih]
      | failAfterCtx => simp [connectServer, hatt, ih]
      | failAfterSession => simp [connectServer, hatt, ih]

/-- C8: for every starting state, configuration sequence and attempt
outcomes, `connect_all` returns exactly the concatenated union of the tools
of the successful attempts, in configuration order — a failing provider
contributes nothing and never short-circuits the remaining providers. -/
theorem C8_connect_all_no_short_circuit (st : ManagerState)
    (configs : List MCPServerConfig) (atts : Nat → ConnectAttempt) :
    (connectAll st configs atts).1 = toolsUnion atts 0 configs := by
  simpa using connectAllGo_tools atts configs 0 [] st

/-- C7 (amended): `disconnect_all` empties the registry, the provider map,
the cached tool list and the context stack from any state; `connect_all`
rebuilds only the cached tool list wholesale (it becomes exactly the new
cycle's union), while the name→provider registry is the previous registry
updated with the cycle's registrations in order — last registration wins on
collision, and entries of earlier cycles survive unless overwritten. -/
theorem C7_amended_registry_lifecycle (st : ManagerState)
    (configs : List MCPServerConfig) (atts : Nat → ConnectAttempt) :
    disconnectAll st = ⟨[], [], [], 0⟩ ∧
    (connectAll st configs atts).2.claude_tools = toolsUnion atts 0 configs ∧
    (connectAll st configs atts).2.tool_to_server =
      (cycleAssignments atts 0 configs).foldl (fun r p => dictSet r p.1 p.2)
        st.tool_to_server := by
  refine ⟨rfl, ?_, connectAllGo_registry atts configs 0 [] st⟩
  rw [connectAll, connectAllGo_cache]
  simpa using connectAllGo_tools atts configs 0 [] st

/-- C1 (amended): for positive requested values, the effective load
parameters computed by `_discover` are `min(requested, maximum)` —
the maximum whenever the request exceeds it, the request otherwise,
independently for volume and duration — and the generation-step argument
payload carries exactly those effective values (a requested value of `0`,
being falsy, instead selects the discovered maximum; see the
counterexample). -/
theorem C1_amended_clamping (u v m dm : Int) (hu : 0 < u) (hv : 0 < v) :
    (DeterministicPipeline.discover (oDiscCaps m dm)
        ⟨"svc", "local", some u, some v, none, none, false, false⟩ ⟨0, []⟩).1 =
      .ok ⟨.arr [.obj []], .str "http://x", .null, .null, .num m, .num dm,
           .num (if u > m then m else u), .num (if v > dm then dm else v)⟩ ∧
    (∀ (cfg : TestRunConfig) (dd : Discovery),
      pySubscript (scriptArgsObj cfg dd) "virtual_users" = .ok dd.eff_users ∧
      pySubscript (scriptArgsObj cfg dd) "duration_seconds" = .ok dd.eff_duration) := by
  constructor
  · have hu0 : u ≠ 0 := by omega
    have hv0 : v ≠ 0 := by omega
    have hmu : min u m = if u > m then m else u := by omega
    have hmv : min v dm = if v > dm then dm else v := by omega
    simp [DeterministicPipeline.discover, callToolSafe, CallState.call, oDiscCaps,
      discoverBody, pyGet, pySubscript, jlookup, pyHasError, effParam, pyOrReq,
      pyMin, hu0, hv0, JVal.truthy, hmu, hmv, bind, Except.bind, pure, Except.pure,
      Functor.map, Except.map]
  · intro cfg dd
    cases h1 : dd.test_data_file.truthy <;> cases h2 : dd.token_file.truthy <;>
      simp [scriptArgsObj, h1, h2, pySubscript, jlookup]

/-- C1 witness: requested 20 users / 30 s against maxima 10 users / 60 s
yields effective 10 users (clamped) and 30 s (unclamped). -/
theorem C1_amended_witness :
    (DeterministicPipeline.discover (oDiscCaps 10 60)
        ⟨"svc", "local", some 20, some 30, none, none, false, false⟩ ⟨0, []⟩).1 =
      .ok ⟨.arr [.obj []], .str "http://x", .null, .null, .num 10, .num 60,
           .num 10, .num 30⟩ := by
  have h := (C1_amended_clamping 20 30 10 60 (by norm_num) (by norm_num)).1
  simpa using h

/-- C3: step policy of the deterministic pipeline.  A forced error-marked
response injected at snapshot step 3 or snapshot step 5 (with any error
payload) does not prevent the run from reaching step 6 and returning a
verdict; a forced error-marked response at discovery (step 1), generation
(step 2) or run-execution (step 4) aborts the run before step 6. -/
theorem C3_step_policy (e2 e4 eB eC eD : JVal) :
    ((DeterministicPipeline.run (injectErr 2 e2 oGood) cfgPlain).1 =
      .ok ⟨.obj [("performance_grade", .str "A")], none,
           .obj [("saved_to", .str "report.md")], .str "PASS"⟩ ∧
     "analyze_results" ∈ calledTools
       (DeterministicPipeline.run (injectErr 2 e2 oGood) cfgPlain).2) ∧
    ((DeterministicPipeline.run (injectErr 4 e4 oGood) cfgPlain).1 =
      .ok ⟨.obj [("performance_grade", .str "A")], none,
           .obj [("saved_to", .str "report.md")], .str "PASS"⟩ ∧
     "analyze_results" ∈ calledTools
       (DeterministicPipeline.run (injectErr 4 e4 oGood) cfgPlain).2) ∧
    ((DeterministicPipeline.run (injectErr 0 eB oGood) cfgPlain).1 =
      .error (.toolCallError "discover_endpoints" eB) ∧
     calledTools (DeterministicPipeline.run (injectErr 0 eB oGood) cfgPlain).2 =
       ["discover_endpoints"]) ∧
    ((DeterministicPipeline.run (injectErr 1 eC oGood) cfgPlain).1 =
      .error (.toolCallError "generate_k6_script" eC) ∧
     "analyze_results" ∉ calledTools
       (DeterministicPipeline.run (injectErr 1 eC oGood) cfgPlain).2) ∧
    ((DeterministicPipeline.run (injectErr 3 eD oGood) cfgPlain).1 =
      .error (.toolCallError "run_k6_test" eD) ∧
     "analyze_results" ∉ calledTools
       (DeterministicPipeline.run (injectErr 3 eD oGood) cfgPlain).2) := by
  refine ⟨⟨rfl, ?_⟩, ⟨rfl, ?_⟩, ⟨rfl, rfl⟩, ⟨rfl, ?_⟩, ⟨rfl, ?_⟩⟩
  · exact (by decide :
      "analyze_results" ∈ (["discover_endpoints", "generate_k6_script",
        "snapshot_metrics", "run_k6_test", "snapshot_metrics", "analyze_results",
        "generate_report"] : List String))
  · exact (by decide :
      "analyze_results" ∈ (["discover_endpoints", "generate_k6_script",
        "snapshot_metrics", "run_k6_test", "snapshot_metrics", "analyze_results",
        "generate_report"] : List String))
  · exact (by decide :
      "analyze_results" ∉ (["discover_endpoints", "generate_k6_script"] : List String))
  · exact (by decide :
      "analyze_results" ∉ (["discover_endpoints", "generate_k6_script",
        "snapshot_metrics", "run_k6_test"] : List String))

/-- C10 (amended): the two pipeline implementations agree at the discovery
and generation steps — for every configuration and injected error payload
both abort there with identical call traces — and they agree on the benign
path, producing the same analysis/comparison/report/verdict quadruple; but
they are NOT equivalent: an error-marked run-execution response aborts
`DeterministicPipeline.run` before step 6, while `_run_pipeline` of
`main.py` (which never inspects the run response for an error marker)
continues to step 6 and returns a verdict. -/
theorem C10_amended_divergence :
    (∀ (cfg : TestRunConfig) (e : JVal),
      (DeterministicPipeline.run (injectErr 0 e oGood) cfg).1 =
        .error (.toolCallError "discover_endpoints" e) ∧
      (mainRun (injectErr 0 e oGood) cfg).1 = .ok none ∧
      (DeterministicPipeline.run (injectErr 0 e oGood) cfg).2 =
        (mainRun (injectErr 0 e oGood) cfg).2) ∧
    (∀ e : JVal,
      (DeterministicPipeline.run (injectErr 1 e oGood) cfgPlain).1 =
        .error (.toolCallError "generate_k6_script" e) ∧
      (mainRun (injectErr 1 e oGood) cfgPlain).1 = .ok none ∧
      (DeterministicPipeline.run (injectErr 1 e oGood) cfgPlain).2 =
        (mainRun (injectErr 1 e oGood) cfgPlain).2) ∧
    ((DeterministicPipeline.run oGood cfgPlain).1 =
      .ok ⟨.obj [("performance_grade", .str "A")], none,
           .obj [("saved_to", .str "report.md")], .str "PASS"⟩ ∧
     (mainRun oGood cfgPlain).1 =
      .ok (some ⟨.obj [("performance_grade", .str "A")], none,
                 .obj [("saved_to", .str "report.md")], .str "PASS"⟩)) ∧
    (∀ e : JVal,
      (DeterministicPipeline.run (injectErr 3 e oGood) cfgPlain).1 =
        .error (.toolCallError "run_k6_test" e) ∧
      "analyze_results" ∉ calledTools
        (DeterministicPipeline.run (injectErr 3 e oGood) cfgPlain).2 ∧
      (mainRun (injectErr 3 e oGood) cfgPlain).1 =
        .ok (some ⟨.obj [("performance_grade", .str "A")], none,
                   .obj [("saved_to", .str "report.md")], .str "PASS"⟩) ∧
      "analyze_results" ∈ calledTools
        (mainRun (injectErr 3 e oGood) cfgPlain).2) := by
  refine ⟨fun cfg e => ⟨rfl, rfl, rfl⟩, fun e => ⟨rfl, rfl, rfl⟩, ⟨rfl, rfl⟩,
    fun e => ⟨rfl, ?_, rfl, ?_⟩⟩
  · exact (by decide :
      "analyze_results" ∉ (["discover_endpoints", "generate_k6_script",
        "snapshot_metrics", "run_k6_test"] : List String))
  · exact (by decide :
      "analyze_results" ∈ (["discover_endpoints", "generate_k6_script",
        "snapshot_metrics", "run_k6_test", "snapshot_metrics", "analyze_results",
        "generate_report"] : List String))
